import Mathlib

/-
  Verification development for the Meta AI image-to-video automation
  extension (content.js, sidebar.js, background.js, and the legacy
  content-script variant).  The JavaScript is shallowly embedded:
  DOM elements become attribute lists, the DOM becomes a query function,
  poll loops become per-tick functions plus an explicit scheduler, and
  the main automation loop becomes a trace-producing function over an
  environment that fixes each item's outcome and the arrival of stop
  requests at the loop's cooperative poll points.
-/

namespace MAI

/-- A DOM element, reduced to its attribute list.  `getAttribute` returns
the first binding, or `none` for JavaScript `null`. -/
structure Elem where
  attrs : List (String × String)
deriving DecidableEq, Repr

/-- `element.getAttribute(name)`: first matching attribute value, else null. -/
def getAttribute (e : Elem) (name : String) : Option String :=
  (e.attrs.find? (fun p => p.1 = name)).map (fun p => p.2)

/-- content.js `isSendButtonEnabled(btn)`: `if (!btn) return false;`
then `btn.getAttribute('aria-disabled') !== 'true'`. -/
def isSendButtonEnabled (btn : Option Elem) : Bool :=
  match btn with
  | none => false
  | some b => getAttribute b ("aria-disabled") != some ("true")

/-- sidebar.js log entry `{ time, message, type }`. -/
structure LogEntry where
  time : String
  message : String
  type : String
deriving DecidableEq, Repr

/-- sidebar.js `addLogEntry` persistence step:
`logs.push({time, message, type}); if (logs.length > 50) logs.shift();`. -/
def addLogEntry (logs : List LogEntry) (e : LogEntry) : List LogEntry :=
  if 50 < (logs ++ [e]).length then (logs ++ [e]).tail else logs ++ [e]

/-! CONFIG timing constants of content.js. -/

def MIN_DELAY : ℤ := 5000

def MAX_DELAY : ℤ := 15000

def TIMEOUT : ℤ := 120000

def BUTTON_ENABLE_TIMEOUT : ℤ := 60000

/-- content.js `getRandomDelay()`:
`Math.floor(Math.random() * (CONFIG.MAX_DELAY - CONFIG.MIN_DELAY + 1)) + CONFIG.MIN_DELAY`,
with `Math.random()`'s value passed in as `rand`. -/
def getRandomDelay (rand : ℚ) : ℤ :=
  ⌊rand * ((MAX_DELAY : ℚ) - (MIN_DELAY : ℚ) + 1)⌋ + MIN_DELAY

/-! Element locator.  The page is a query function from selector strings to
an optional element; since the DOM may change between retry rounds, the
query function is indexed by the round number (round 0 is the immediate
pass, round `r` follows the r-th sleep). -/

/-- The inner loop of `findElementFromSelectors`: try each selector in
declaration order against one DOM state, first match wins. -/
def tryAll (q : String → Option Elem) : List String → Option Elem
  | [] => none
  | s :: rest =>
    match q s with
    | some e => some e
    | none => tryAll q rest

/-- The retry loop of `findElementFromSelectors`: each round sleeps `delay`
milliseconds and then re-tries all selectors in order, up to the given
number of remaining attempts.  Returns the result together with the total
milliseconds slept. -/
def retryRounds (dom : Nat → String → Option Elem) (sels : List String)
    (delay : Nat) : Nat → Nat → Option Elem × Nat
  | _, 0 => (none, 0)
  | round, n + 1 =>
    match tryAll (dom round) sels with
    | some e => (some e, delay)
    | none =>
      let r := retryRounds dom sels delay (round + 1) n
      (r.1, delay + r.2)

/-- content.js `findElementFromSelectors(selectors, maxAttempts, delay)`:
an immediate pass over all selectors, then up to `maxAttempts` sleep-then-retry
rounds; `null` (`none`) after exhausting all attempts.  Also returns the
total milliseconds slept. -/
def findElementFromSelectors (dom : Nat → String → Option Elem)
    (sels : List String) (maxAttempts : Nat) (delay : Nat) : Option Elem × Nat :=
  match tryAll (dom 0) sels with
  | some e => (some e, 0)
  | none => retryRounds dom sels delay 1 maxAttempts

/-! Waiting primitives.  Each `setInterval` body becomes a per-tick function
from the observed state (elapsed wall-clock time, the shared `shouldStop`
flag, the DOM reads the body performs) to `none` (keep waiting) or
`some r`, where `r` settles the promise: `rejected` for `reject`,
`resolved` for `resolve`. -/

/-- How a promise settles. -/
inductive WaitResult (A : Type)
  | resolved (a : A)
  | rejected (msg : String)
deriving DecidableEq, Repr

/-- One poll tick of content.js `waitForSendButtonEnabled`: timeout check,
then stop check, then the button-enabled predicate. -/
def sendButtonTick (now start : ℤ) (stop : Bool) (btn : Option Elem) :
    Option (WaitResult Elem) :=
  if BUTTON_ENABLE_TIMEOUT < now - start then
    some (WaitResult.rejected ("Timeout waiting for Send button to enable (image upload may have failed)"))
  else if stop then
    some (WaitResult.rejected ("Stopped by user"))
  else
    match btn with
    | some b => if isSendButtonEnabled (some b) then some (WaitResult.resolved b) else none
    | none => none

/-- One poll tick of content.js `waitForGenerationComplete`: timeout resolves
`null` (proceed anyway), then stop check, then the new-video-count check,
then the button-re-enabled-after-3s heuristic. -/
def generationTick (now start : ℤ) (stop : Bool)
    (initialVideoCount currentVideoCount : Nat) (btn : Option Elem) :
    Option (WaitResult (Option Bool)) :=
  if TIMEOUT < now - start then
    some (WaitResult.resolved none)
  else if stop then
    some (WaitResult.rejected ("Stopped by user"))
  else if initialVideoCount < currentVideoCount then
    some (WaitResult.resolved (some true))
  else if btn.isSome && !(isSendButtonEnabled btn) then
    none
  else if btn.isSome && isSendButtonEnabled btn && decide (3000 < now - start) then
    some (WaitResult.resolved (some true))
  else
    none

/-- One poll tick of the legacy content-script variant's `waitForCompletion`:
timeout REJECTS with `Generation timeout (2 minutes)`, then stop check, then
the download-button check, then the spinner-gone recheck. -/
def waitForCompletionTick (now start : ℤ) (stop : Bool)
    (downloadBtn : Option Elem) (spinner : Bool)
    (downloadBtnAfterWait : Option Elem) : Option (WaitResult Elem) :=
  if TIMEOUT < now - start then
    some (WaitResult.rejected ("Generation timeout (2 minutes)"))
  else if stop then
    some (WaitResult.rejected ("Stopped by user"))
  else
    match downloadBtn with
    | some b => some (WaitResult.resolved b)
    | none =>
      if !spinner then
        match downloadBtnAfterWait with
        | some b => some (WaitResult.resolved b)
        | none => none
      else none

/-- A whole wait: the promise settles with the first tick that resolves or
rejects; earlier ticks keep waiting. -/
def settleWait {σ ρ : Type} (tick : σ → Option ρ) : List σ → Option ρ
  | [] => none
  | s :: rest =>
    match tick s with
    | some r => some r
    | none => settleWait tick rest

/-- `waitForSendButtonEnabled` run over a sequence of tick observations
`(now, shouldStop, findSendButton())`. -/
def runSendButtonWait (start : ℤ) (ticks : List (ℤ × Bool × Option Elem)) :
    Option (WaitResult Elem) :=
  settleWait (fun t => sendButtonTick t.1 start t.2.1 t.2.2) ticks

/-- `waitForGenerationComplete`'s poll loop run over a sequence of tick
observations `(now, shouldStop, currentVideoCount, findSendButton())`. -/
def runGenerationWait (start : ℤ) (initialVideoCount : Nat)
    (ticks : List (ℤ × Bool × Nat × Option Elem)) :
    Option (WaitResult (Option Bool)) :=
  settleWait (fun t => generationTick t.1 start t.2.1 initialVideoCount t.2.2.1 t.2.2.2) ticks

/-! sidebar.js prompt parsing, over strings as lists of characters. -/

/-- JavaScript whitespace for `String.prototype.trim`. -/
def isWS (c : Char) : Bool := c.isWhitespace

/-- `line.trim()`: drop whitespace from the front, then from the back. -/
def trimStr (l : List Char) : List Char :=
  ((l.dropWhile isWS).reverse.dropWhile isWS).reverse

/-- `value.split('\n')`. -/
def splitNl : List Char → List (List Char)
  | [] => [[]]
  | c :: rest =>
    if c = ('\n') then [] :: splitNl rest
    else
      match splitNl rest with
      | [] => [[c]]
      | h :: t => (c :: h) :: t

/-- sidebar.js `getPrompts()`:
`value.split('\n').map(line => line.trim()).filter(line => line.length > 0)`. -/
def getPrompts (value : List Char) : List (List Char) :=
  ((splitNl value).map trimStr).filter (fun l => decide (0 < l.length))

/-! The automation controller: content.js `runAutomation` and `processItem`
as a trace-producing function.  The trace records every sidebar message,
every storage write, and every sleep.  The environment fixes, per loop
iteration, the outcome of the item's try-block and whether a stop request
has set `shouldStop` by the next loop-head check (cancellation is
cooperative: the flag is only ever read at the loop head and inside the
waiting primitives). -/

/-- Sidebar-visible status texts of `PROGRESS_UPDATE` messages, abstracted
to tags (`waitingDelay` carries the milliseconds shown in the text). -/
inductive Status
  | loadingImage
  | checkingMode
  | uploadingImage
  | waitingActivate
  | waitingGlow
  | generatingVideo
  | waitingDelay (ms : ℤ)
deriving DecidableEq, Repr

/-- Messages sent to the sidebar (`sendToSidebar`). -/
inductive Msg
  | progress (current total : ℤ) (status : Status)
  | itemComplete (index : Nat)
  | itemError (index : ℤ) (error : String)
  | automationComplete
  | automationStopped
deriving DecidableEq, Repr

/-- Observable events of a run: sidebar messages, `chrome.storage.local`
writes, and the two kinds of post-item sleeps. -/
inductive Ev
  | send (m : Msg)
  | putIndex (n : Nat)
  | putRunningFalse
  | interItemDelay (ms : ℤ)
  | cooldown (ms : Nat)
deriving DecidableEq, Repr

/-- The point in an iteration's try-block at which an error is thrown. -/
inductive FailStage
  | loadImage
  | upload
  | promptSet
  | submitWait
  | genWait
deriving DecidableEq, Repr

/-- Outcome of one iteration's try-block: normal completion of
`requestImageData` + `processItem`, or a throw at the given stage. -/
inductive ItemStep
  | ok
  | failAt (stage : FailStage) (msg : String)
deriving DecidableEq, Repr

/-- The progress messages emitted before a throw at the given stage: the
`Loading image...` update precedes `requestImageData`, and `processItem`
emits one update before each fallible step (`clickAnimateButton` adds the
`Waiting for button to glow...` update with current = total = -1). -/
def progressPrefix (i total : Nat) : FailStage → List Ev
  | .loadImage =>
    [Ev.send (Msg.progress (i + 1) total Status.loadingImage)]
  | .upload =>
    [Ev.send (Msg.progress (i + 1) total Status.loadingImage),
     Ev.send (Msg.progress (i + 1) total Status.checkingMode),
     Ev.send (Msg.progress (i + 1) total Status.uploadingImage)]
  | .promptSet =>
    [Ev.send (Msg.progress (i + 1) total Status.loadingImage),
     Ev.send (Msg.progress (i + 1) total Status.checkingMode),
     Ev.send (Msg.progress (i + 1) total Status.uploadingImage)]
  | .submitWait =>
    [Ev.send (Msg.progress (i + 1) total Status.loadingImage),
     Ev.send (Msg.progress (i + 1) total Status.checkingMode),
     Ev.send (Msg.progress (i + 1) total Status.uploadingImage),
     Ev.send (Msg.progress (i + 1) total Status.waitingActivate),
     Ev.send (Msg.progress (-1) (-1) Status.waitingGlow)]
  | .genWait =>
    [Ev.send (Msg.progress (i + 1) total Status.loadingImage),
     Ev.send (Msg.progress (i + 1) total Status.checkingMode),
     Ev.send (Msg.progress (i + 1) total Status.uploadingImage),
     Ev.send (Msg.progress (i + 1) total Status.waitingActivate),
     Ev.send (Msg.progress (-1) (-1) Status.waitingGlow),
     Ev.send (Msg.progress (i + 1) total Status.generatingVideo)]

/-- Events of a fully successful `requestImageData` + `processItem` call:
all progress updates, `ITEM_COMPLETE`, and the checkpoint write
`currentIndex = index + 1`. -/
def okEvents (i total : Nat) : List Ev :=
  [Ev.send (Msg.progress (i + 1) total Status.loadingImage),
   Ev.send (Msg.progress (i + 1) total Status.checkingMode),
   Ev.send (Msg.progress (i + 1) total Status.uploadingImage),
   Ev.send (Msg.progress (i + 1) total Status.waitingActivate),
   Ev.send (Msg.progress (-1) (-1) Status.waitingGlow),
   Ev.send (Msg.progress (i + 1) total Status.generatingVideo),
   Ev.send (Msg.itemComplete i),
   Ev.putIndex (i + 1)]

/-- Events of one loop iteration's body after the loop-head stop check:
on success, the inter-item randomized delay follows unless this is the last
item; on a throw, the catch block emits `ITEM_ERROR`, persists
`currentIndex = i + 1` anyway, and sleeps a 3000 ms cooldown. -/
def iterEvents (i total : Nat) (step : ItemStep) (delay : ℤ) : List Ev :=
  match step with
  | .ok =>
    okEvents i total ++
      (if i + 1 < total then
        [Ev.send (Msg.progress (i + 1) total (Status.waitingDelay delay)),
         Ev.interItemDelay delay]
      else [])
  | .failAt stage msg =>
    progressPrefix i total stage ++
      [Ev.send (Msg.itemError i msg), Ev.putIndex (i + 1), Ev.cooldown 3000]

/-- Environment for one loop iteration: the try-block's outcome, and whether
`shouldStop` is set by the time of the next loop-head check. -/
structure IterEnv where
  step : ItemStep
  stopDuring : Bool

/-- After the loop: `if (!shouldStop)` emit `AUTOMATION_COMPLETE` and reset
`isRunning = false, currentIndex = 0`; on the stop path nothing further. -/
def endEvents (stop : Bool) : List Ev :=
  if stop then []
  else [Ev.send Msg.automationComplete, Ev.putRunningFalse, Ev.putIndex 0]

/-- The `for` loop of `runAutomation`, from item `i` with `fuel` iterations
remaining (`fuel = totalItems - i`): the loop head observes `shouldStop`
(emitting `AUTOMATION_STOPPED` and breaking if set), otherwise runs the
iteration body and continues with the stop flag the environment says was
reached.  Returns the events and the final value of `shouldStop`. -/
def loopBody (env : Nat → IterEnv) (rand : Nat → ℚ) (total : Nat) :
    Nat → Nat → Bool → List Ev × Bool
  | 0, _, stop => ([], stop)
  | fuel + 1, i, stop =>
    if stop then ([Ev.send Msg.automationStopped], stop)
    else
      let e := env i
      let rest := loopBody env rand total fuel (i + 1) (stop || e.stopDuring)
      (iterEvents i total e.step (getRandomDelay (rand i)) ++ rest.1, rest.2)

/-- The loop followed by the completion epilogue. -/
def runLoopTrace (env : Nat → IterEnv) (rand : Nat → ℚ) (total fuel i : Nat)
    (stop : Bool) : List Ev :=
  (loopBody env rand total fuel i stop).1 ++
    endEvents (loopBody env rand total fuel i stop).2

/-- content.js `runAutomation()`: the re-entry guard, the fatal setup check
(`!state.prompts || totalItems === 0` throws `No queue found in storage`,
reported as `ITEM_ERROR` with index -1), then the loop from the persisted
checkpoint `startIndex`. -/
def runAutomation (alreadyRunning hasQueue : Bool) (totalItems startIndex : Nat)
    (env : Nat → IterEnv) (rand : Nat → ℚ) : List Ev :=
  if alreadyRunning then []
  else if !hasQueue || totalItems == 0 then
    [Ev.send (Msg.itemError (-1) ("No queue found in storage"))]
  else
    runLoopTrace env rand totalItems (totalItems - startIndex) startIndex false

/-- The sequence of `currentIndex` values persisted by a trace. -/
def checkpointWrites (evs : List Ev) : List Nat :=
  evs.filterMap (fun e =>
    match e with
    | .putIndex n => some n
    | _ => none)

/-- The three run-terminating notifications of the error-handling design. -/
def isTerminalMsg : Ev → Bool
  | .send (Msg.itemError _ _) => true
  | .send Msg.automationComplete => true
  | .send Msg.automationStopped => true
  | _ => false

end MAI

namespace MAI

/-- C9: `isSendButtonEnabled` is false on a null button; on a non-null
button it is true exactly when `aria-disabled` is not the string "true";
an element with no `aria-disabled` attribute counts as enabled. -/
theorem C9_isSendButtonEnabled_spec :
    isSendButtonEnabled none = false ∧
    (∀ b : Elem, isSendButtonEnabled (some b) = true ↔
      getAttribute b ("aria-disabled") ≠ some ("true")) ∧
    (∀ b : Elem, getAttribute b ("aria-disabled") = none →
      isSendButtonEnabled (some b) = true) := by
  refine ⟨rfl, ?_, ?_⟩
  · intro b
    simp [isSendButtonEnabled]
  · intro b h
    simp [isSendButtonEnabled, h]

/-- Witness for C9 at a concrete element carrying no attributes. -/
theorem C9_isSendButtonEnabled_witness :
    getAttribute ⟨[]⟩ ("aria-disabled") = none ∧
    isSendButtonEnabled (some ⟨[]⟩) = true := by
  refine ⟨rfl, C9_isSendButtonEnabled_spec.2.2 ⟨[]⟩ rfl⟩

/-- The length of the stored log after one append, as a function of the
length before it. -/
lemma addLogEntry_length (logs : List LogEntry) (e : LogEntry) :
    (addLogEntry logs e).length =
      if 50 < logs.length + 1 then logs.length else logs.length + 1 := by
  by_cases h : 50 < logs.length + 1 <;>
    simp [addLogEntry, h, List.length_tail]

/-- C7: appending to a log already holding 50 entries keeps exactly the 50
most recent entries, discarding the oldest from the front, and an append
to any log of at most 50 entries leaves at most 50 entries. -/
theorem C7_addLogEntry_ring_buffer :
    (∀ (logs : List LogEntry) (e : LogEntry), logs.length = 50 →
      addLogEntry logs e = logs.tail ++ [e] ∧ (addLogEntry logs e).length = 50) ∧
    (∀ (logs : List LogEntry) (e : LogEntry), logs.length ≤ 50 →
      (addLogEntry logs e).length ≤ 50) := by
  constructor
  · intro logs e h
    constructor
    · match logs, h with
      | a :: t, h =>
        have ht : t.length = 49 := by simpa using h
        simp [addLogEntry, ht]
    · rw [addLogEntry_length, h]
      simp
  · intro logs e h
    rw [addLogEntry_length]
    split <;> omega

/-- Witness for C7 at a concrete 50-entry log. -/
theorem C7_addLogEntry_ring_buffer_witness :
    (List.replicate 50 (⟨"t", "m", "info"⟩ : LogEntry)).length = 50 ∧
    addLogEntry (List.replicate 50 ⟨"t", "m", "info"⟩) ⟨"t2", "m2", "info"⟩ =
      (List.replicate 50 (⟨"t", "m", "info"⟩ : LogEntry)).tail ++
        [⟨"t2", "m2", "info"⟩] := by
  refine ⟨by simp, (C7_addLogEntry_ring_buffer.1 _ _ (by simp)).1⟩

/-- `tryAll` picks the element of the earliest selector that matches. -/
lemma tryAll_eq_find (q : String → Option Elem) (sels : List String) :
    tryAll q sels = ((sels.find? (fun s => (q s).isSome)).bind q) := by
  induction sels with
  | nil => rfl
  | cons s rest ih =>
    cases h : q s with
    | some e => simp [tryAll, List.find?_cons, h]
    | none => simp [tryAll, List.find?_cons, h, ih]

/-- If no selector matches this DOM state, the pass returns nothing. -/
lemma tryAll_none (q : String → Option Elem) (sels : List String)
    (h : ∀ s ∈ sels, q s = none) : tryAll q sels = none := by
  induction sels with
  | nil => rfl
  | cons s rest ih =>
    simp only [tryAll, h s (by simp)]
    exact ih (fun x hx => h x (by simp [hx]))

/-- If no retry round ever matches, the retry loop exhausts all attempts,
sleeping `delay` before each round. -/
lemma retryRounds_exhausts (dom : Nat → String → Option Elem)
    (sels : List String) (delay : Nat)
    (h : ∀ r, tryAll (dom r) sels = none) :
    ∀ n round, retryRounds dom sels delay round n = (none, n * delay) := by
  intro n
  induction n with
  | zero => intro round; simp [retryRounds]
  | succ n ih =>
    intro round
    simp only [retryRounds, h round, ih (round + 1)]
    have : delay + n * delay = (n + 1) * delay := by ring
    rw [this]

/-- C5: the locator tries every selector immediately in declaration order
and the earliest match wins with no elapsed delay; with selectors `[A, B]`
where only `B`'s target exists it returns the `B` element at once; when no
selector ever matches it returns `none` after `maxAttempts` retry rounds
with `maxAttempts * interval` milliseconds of sleeping. -/
theorem C5_findElementFromSelectors_spec :
    (∀ (q : String → Option Elem) (sels : List String),
      tryAll q sels = ((sels.find? (fun s => (q s).isSome)).bind q)) ∧
    (∀ (dom : Nat → String → Option Elem) (sels : List String)
        (m d : Nat) (e : Elem),
      tryAll (dom 0) sels = some e →
      findElementFromSelectors dom sels m d = (some e, 0)) ∧
    (∀ (dom : Nat → String → Option Elem) (A B : String) (e : Elem) (m d : Nat),
      dom 0 A = none → dom 0 B = some e →
      findElementFromSelectors dom [A, B] m d = (some e, 0)) ∧
    (∀ (dom : Nat → String → Option Elem) (sels : List String) (m d : Nat),
      (∀ r s, s ∈ sels → dom r s = none) →
      findElementFromSelectors dom sels m d = (none, m * d)) := by
  refine ⟨tryAll_eq_find, ?_, ?_, ?_⟩
  · intro dom sels m d e h
    simp [findElementFromSelectors, h]
  · intro dom A B e m d hA hB
    simp [findElementFromSelectors, tryAll, hA, hB]
  · intro dom sels m d h
    have hall : ∀ r, tryAll (dom r) sels = none :=
      fun r => tryAll_none _ _ (fun s hs => h r s hs)
    simp only [findElementFromSelectors, hall 0]
    exact retryRounds_exhausts dom sels d hall m 1

/-- Witness for C5: a page where only the second selector's target exists,
and a page with no matches at all. -/
theorem C5_findElementFromSelectors_witness :
    findElementFromSelectors
        (fun _ s => if s = ("B") then some ⟨[]⟩ else none)
        [("A"), ("B")] 10 500 = (some ⟨[]⟩, 0) ∧
    findElementFromSelectors (fun _ _ => none) [("A"), ("B")] 10 500 =
      (none, 10 * 500) := by
  constructor
  · exact C5_findElementFromSelectors_spec.2.2.1
      (fun _ s => if s = ("B") then some ⟨[]⟩ else none) ("A") ("B") ⟨[]⟩ 10 500
      (by simp) (by simp)
  · exact C5_findElementFromSelectors_spec.2.2.2 (fun _ _ => none) _ 10 500
      (fun _ _ _ => rfl)

/-- `getRandomDelay`, with the span `MAX_DELAY - MIN_DELAY + 1` computed out. -/
lemma getRandomDelay_eq (r : ℚ) : getRandomDelay r = ⌊r * 10001⌋ + 5000 := by
  norm_num [getRandomDelay, MIN_DELAY, MAX_DELAY]

/-- C8: for a random draw in `[0, 1)` the inter-item delay lies in the
closed range `[MIN_DELAY, MAX_DELAY]`; the draws mapping to each value
`MIN_DELAY + k` form the interval `[k/10001, (k+1)/10001)`, so all 10001
values are hit by intervals of equal width (the uniform draw); the run
sleeps the delay after a successfully completed item exactly when it is
not the last one. -/
theorem C8_getRandomDelay_spec :
    (∀ r : ℚ, 0 ≤ r → r < 1 →
      MIN_DELAY ≤ getRandomDelay r ∧ getRandomDelay r ≤ MAX_DELAY) ∧
    (∀ (r : ℚ) (k : ℤ),
      getRandomDelay r = MIN_DELAY + k ↔
        (k : ℚ) / 10001 ≤ r ∧ r < ((k : ℚ) + 1) / 10001) ∧
    (∀ (i total : Nat) (step : ItemStep) (delay : ℤ), i + 1 = total →
      ∀ ms, Ev.interItemDelay ms ∉ iterEvents i total step delay) ∧
    (∀ (i total : Nat) (delay : ℤ), i + 1 < total →
      Ev.interItemDelay delay ∈ iterEvents i total ItemStep.ok delay) := by
  have h10001 : (0 : ℚ) < 10001 := by norm_num
  refine ⟨?_, ?_, ?_, ?_⟩
  · intro r h0 h1
    rw [getRandomDelay_eq]
    have hlo : (0 : ℤ) ≤ ⌊r * 10001⌋ := by
      apply Int.floor_nonneg.mpr
      positivity
    have hhi : ⌊r * 10001⌋ < 10001 := by
      apply Int.floor_lt.mpr
      push_cast
      nlinarith
    constructor
    · simp only [MIN_DELAY]
      omega
    · simp only [MAX_DELAY]
      omega
  · intro r k
    rw [getRandomDelay_eq]
    have hstep : (⌊r * 10001⌋ + 5000 = MIN_DELAY + k) ↔ ⌊r * 10001⌋ = k := by
      simp only [MIN_DELAY]
      omega
    rw [hstep, Int.floor_eq_iff, div_le_iff₀ h10001, lt_div_iff₀ h10001]
  · intro i total step delay h ms
    subst h
    cases step with
    | ok => simp [iterEvents, okEvents]
    | failAt stage msg => cases stage <;> simp [iterEvents, progressPrefix]
  · intro i total delay h
    simp [iterEvents, okEvents, h]

/-- Witness for C8 at the draw 0 and a two-item run's first item. -/
theorem C8_getRandomDelay_witness :
    (MIN_DELAY ≤ getRandomDelay 0 ∧ getRandomDelay 0 ≤ MAX_DELAY) ∧
    (∀ ms, Ev.interItemDelay ms ∉ iterEvents 0 1 ItemStep.ok 0) ∧
    Ev.interItemDelay 5000 ∈ iterEvents 0 2 ItemStep.ok 5000 :=
  ⟨C8_getRandomDelay_spec.1 0 (by norm_num) (by norm_num),
   C8_getRandomDelay_spec.2.2.1 0 1 ItemStep.ok 0 rfl,
   C8_getRandomDelay_spec.2.2.2 0 2 5000 (by norm_num)⟩

/-- The wait settles with the first settling tick. -/
lemma settleWait_first {σ ρ : Type} (tick : σ → Option ρ) (pre : List σ)
    (x : σ) (rest : List σ) (r : ρ)
    (hpre : ∀ y ∈ pre, tick y = none) (hx : tick x = some r) :
    settleWait tick (pre ++ x :: rest) = some r := by
  induction pre with
  | nil => simp [settleWait, hx]
  | cons a l ih =>
    simp only [List.cons_append, settleWait, hpre a (by simp)]
    exact ih (fun y hy => hpre y (by simp [hy]))

/-- C2 counterexample: on a poll tick where the stop flag is set but the
timeout has also elapsed, both waits report the timeout outcome, not the
cancelled one — the cancel flag is consulted AFTER the timeout check. -/
theorem C2_counterexample_timeout_checked_first :
    sendButtonTick (BUTTON_ENABLE_TIMEOUT + 1) 0 true none =
      some (WaitResult.rejected
        ("Timeout waiting for Send button to enable (image upload may have failed)")) ∧
    generationTick (TIMEOUT + 1) 0 true 0 0 none =
      some (WaitResult.resolved none) ∧
    sendButtonTick (BUTTON_ENABLE_TIMEOUT + 1) 0 true none ≠
      some (WaitResult.rejected ("Stopped by user")) ∧
    generationTick (TIMEOUT + 1) 0 true 0 0 none ≠
      some (WaitResult.rejected ("Stopped by user")) := by
  refine ⟨?_, ?_, ?_, ?_⟩ <;> decide

/-- C2 amended: on every poll tick of both waits the stop flag is consulted
after the timeout check but before the predicate, so a stop request at any
tick at which the timeout has not yet elapsed settles the wait as the
cancelled rejection (`Stopped by user`) — never as a success and never as
the timeout outcome — even if the predicate has meanwhile become true. -/
theorem C2_cancel_beats_predicate_not_timeout :
    (∀ (now start : ℤ) (btn : Option Elem),
      ¬ (BUTTON_ENABLE_TIMEOUT < now - start) →
      sendButtonTick now start true btn =
        some (WaitResult.rejected ("Stopped by user"))) ∧
    (∀ (now start : ℤ) (iv cv : Nat) (btn : Option Elem),
      ¬ (TIMEOUT < now - start) →
      generationTick now start true iv cv btn =
        some (WaitResult.rejected ("Stopped by user"))) ∧
    (∀ (start : ℤ) (pre rest : List (ℤ × Bool × Option Elem))
        (now : ℤ) (btn : Option Elem),
      (∀ y ∈ pre, sendButtonTick y.1 start y.2.1 y.2.2 = none) →
      ¬ (BUTTON_ENABLE_TIMEOUT < now - start) →
      runSendButtonWait start (pre ++ (now, true, btn) :: rest) =
        some (WaitResult.rejected ("Stopped by user"))) ∧
    (∀ (start : ℤ) (iv : Nat) (pre rest : List (ℤ × Bool × Nat × Option Elem))
        (now : ℤ) (cv : Nat) (btn : Option Elem),
      (∀ y ∈ pre, generationTick y.1 start y.2.1 iv y.2.2.1 y.2.2.2 = none) →
      ¬ (TIMEOUT < now - start) →
      runGenerationWait start iv (pre ++ (now, true, cv, btn) :: rest) =
        some (WaitResult.rejected ("Stopped by user"))) := by
  have hsend : ∀ (now start : ℤ) (btn : Option Elem),
      ¬ (BUTTON_ENABLE_TIMEOUT < now - start) →
      sendButtonTick now start true btn =
        some (WaitResult.rejected ("Stopped by user")) := by
    intro now start btn h
    simp [sendButtonTick, h]
  have hgen : ∀ (now start : ℤ) (iv cv : Nat) (btn : Option Elem),
      ¬ (TIMEOUT < now - start) →
      generationTick now start true iv cv btn =
        some (WaitResult.rejected ("Stopped by user")) := by
    intro now start iv cv btn h
    simp [generationTick, h]
  refine ⟨hsend, hgen, ?_, ?_⟩
  · intro start pre rest now btn hpre h
    exact settleWait_first _ pre (now, true, btn) rest _ hpre (hsend now start btn h)
  · intro start iv pre rest now cv btn hpre h
    exact settleWait_first _ pre (now, true, cv, btn) rest _ hpre
      (hgen now start iv cv btn h)

/-- Witness for C2 amended: stop set on the very first tick, well before
the timeout, with the button still absent. -/
theorem C2_cancel_beats_predicate_witness :
    runSendButtonWait 0 ([] ++ (300, true, none) :: []) =
      some (WaitResult.rejected ("Stopped by user")) ∧
    runGenerationWait 0 0 ([] ++ (500, true, 0, none) :: []) =
      some (WaitResult.rejected ("Stopped by user")) :=
  ⟨C2_cancel_beats_predicate_not_timeout.2.2.1 0 [] [] 300 none
      (by intro y hy; cases hy) (by decide),
   C2_cancel_beats_predicate_not_timeout.2.2.2 0 0 [] [] 500 0 none
      (by intro y hy; cases hy) (by decide)⟩

/-- C4 counterexample: the legacy variant's generation-completion wait
(`waitForCompletion`) REJECTS on timeout with `Generation timeout
(2 minutes)` — an error that fails the item — while content.js's
`waitForGenerationComplete` resolves `null` at the same elapsed time. -/
theorem C4_counterexample_legacy_timeout_rejects :
    waitForCompletionTick (TIMEOUT + 1) 0 false none true none =
      some (WaitResult.rejected ("Generation timeout (2 minutes)")) ∧
    generationTick (TIMEOUT + 1) 0 false 0 0 none =
      some (WaitResult.resolved none) := by
  refine ⟨?_, ?_⟩ <;> decide

/-- C4 amended: in content.js, a generation wait whose timeout elapses
resolves `null` (proceed anyway, regardless of the stop flag or the DOM),
and a successfully finishing item goes on to emit `ITEM_COMPLETE`; in the
legacy content-script variant, `waitForCompletion` instead rejects with
`Generation timeout (2 minutes)` on timeout, failing the item. -/
theorem C4_generation_timeout_nonfatal :
    (∀ (now start : ℤ) (stop : Bool) (iv cv : Nat) (btn : Option Elem),
      TIMEOUT < now - start →
      generationTick now start stop iv cv btn = some (WaitResult.resolved none)) ∧
    (∀ (i total : Nat) (delay : ℤ),
      Ev.send (Msg.itemComplete i) ∈ iterEvents i total ItemStep.ok delay) ∧
    (∀ (now start : ℤ) (stop : Bool) (dl : Option Elem) (spinner : Bool)
        (dl2 : Option Elem),
      TIMEOUT < now - start →
      waitForCompletionTick now start stop dl spinner dl2 =
        some (WaitResult.rejected ("Generation timeout (2 minutes)"))) := by
  refine ⟨?_, ?_, ?_⟩
  · intro now start stop iv cv btn h
    simp [generationTick, h]
  · intro i total delay
    simp [iterEvents, okEvents]
  · intro now start stop dl spinner dl2 h
    simp [waitForCompletionTick, h]

/-- Witness for C4 amended, one tick past the timeout bound. -/
theorem C4_generation_timeout_nonfatal_witness :
    generationTick 120001 0 false 0 0 none = some (WaitResult.resolved none) ∧
    waitForCompletionTick 120001 0 false none true none =
      some (WaitResult.rejected ("Generation timeout (2 minutes)")) :=
  ⟨C4_generation_timeout_nonfatal.1 120001 0 false 0 0 none (by decide),
   C4_generation_timeout_nonfatal.2.2 120001 0 false none true none (by decide)⟩

/-- The first character surviving a `dropWhile` fails the predicate. -/
lemma head?_dropWhile_eq_some {p : Char → Bool} {l : List Char} {c : Char}
    (h : (l.dropWhile p).head? = some c) : p c = false := by
  have hd := List.head?_dropWhile_not p l
  rw [h] at hd
  exact hd

/-- `dropWhile` keeps the last element of a list it does not empty. -/
lemma getLast?_dropWhile {p : Char → Bool} {l : List Char} {c : Char}
    (h : (l.dropWhile p).getLast? = some c) : l.getLast? = some c := by
  have hdecomp : l.takeWhile p ++ l.dropWhile p = l :=
    List.takeWhile_append_dropWhile p l
  rw [← hdecomp, List.getLast?_append, h]
  rfl

/-- The first character of a trimmed line is not whitespace. -/
lemma trimStr_head_not_ws {l : List Char} {c : Char}
    (h : (trimStr l).head? = some c) : isWS c = false := by
  unfold trimStr at h
  rw [List.head?_reverse] at h
  have h2 := getLast?_dropWhile h
  rw [List.getLast?_reverse] at h2
  exact head?_dropWhile_eq_some h2

/-- The last character of a trimmed line is not whitespace. -/
lemma trimStr_last_not_ws {l : List Char} {c : Char}
    (h : (trimStr l).getLast? = some c) : isWS c = false := by
  unfold trimStr at h
  rw [List.getLast?_reverse] at h
  exact head?_dropWhile_eq_some h

/-- C10: every prompt the sidebar parser produces is non-empty and carries
no leading or trailing whitespace, and the number of prompts equals the
number of lines whose trimmed form is non-blank. -/
theorem C10_getPrompts_trimmed_nonempty :
    (∀ (v p : List Char), p ∈ getPrompts v →
      p ≠ [] ∧
      (∀ c, p.head? = some c → isWS c = false) ∧
      (∀ c, p.getLast? = some c → isWS c = false)) ∧
    (∀ v : List Char,
      (getPrompts v).length =
        ((splitNl v).filter (fun l => decide (0 < (trimStr l).length))).length) := by
  constructor
  · intro v p hp
    simp only [getPrompts, List.mem_filter, List.mem_map] at hp
    obtain ⟨⟨l, _, hl⟩, hlen⟩ := hp
    subst hl
    refine ⟨?_, ?_, ?_⟩
    · intro hnil
      rw [hnil] at hlen
      simp at hlen
    · intro c hc
      exact trimStr_head_not_ws hc
    · intro c hc
      exact trimStr_last_not_ws hc
  · intro v
    simp only [getPrompts, List.filter_map, List.length_map]
    rfl

/-- Witness for C10 on the textarea value `" a\n\n b "`. -/
theorem C10_getPrompts_witness :
    ([('a')] ∈ getPrompts [(' '), ('a'), ('\n'), ('\n'), (' '), ('b'), (' ')]) ∧
    [('a')] ≠ [] ∧
    (∀ c, ([('a')] : List Char).head? = some c → isWS c = false) := by
  have h : [('a')] ∈ getPrompts [(' '), ('a'), ('\n'), ('\n'), (' '), ('b'), (' ')] := by
    decide
  have hm := (C10_getPrompts_trimmed_nonempty.1 _ _ h)
  exact ⟨h, hm.1, hm.2.1⟩

/-- `checkpointWrites` distributes over trace concatenation. -/
lemma checkpointWrites_append (a b : List Ev) :
    checkpointWrites (a ++ b) = checkpointWrites a ++ checkpointWrites b :=
  List.filterMap_append a b _

/-- Every iteration body, successful or failed, persists exactly the single
checkpoint `i + 1`. -/
lemma checkpointWrites_iterEvents (i total : Nat) (step : ItemStep) (delay : ℤ) :
    checkpointWrites (iterEvents i total step delay) = [i + 1] := by
  cases step with
  | ok =>
    by_cases h : i + 1 < total <;>
      simp [iterEvents, okEvents, checkpointWrites, h]
  | failAt stage msg =>
    cases stage <;> simp [iterEvents, progressPrefix, checkpointWrites]

/-- A loop entered with the stop flag set emits only `AUTOMATION_STOPPED`
(or nothing when it is already exhausted) and keeps the flag set. -/
lemma loopBody_stop (env : Nat → IterEnv) (rand : Nat → ℚ) (total : Nat) :
    ∀ fuel i, loopBody env rand total fuel i true =
      ((if fuel = 0 then [] else [Ev.send Msg.automationStopped]), true) := by
  intro fuel i
  cases fuel <;> simp [loopBody]

/-- C3: the checkpoint persisted by item `i`'s iteration is `i + 1` whether
the item succeeded or failed, and along any run the sequence of per-item
checkpoint writes is the consecutive range starting at `i + 1` — never
decreasing, never skipping an index. -/
theorem C3_checkpoint_monotone :
    (∀ (i total : Nat) (step : ItemStep) (delay : ℤ),
      checkpointWrites (iterEvents i total step delay) = [i + 1]) ∧
    (∀ (env : Nat → IterEnv) (rand : Nat → ℚ) (total fuel i : Nat) (stop : Bool),
      ∃ k, checkpointWrites (loopBody env rand total fuel i stop).1 =
        List.range' (i + 1) k) := by
  refine ⟨checkpointWrites_iterEvents, ?_⟩
  intro env rand total fuel
  induction fuel with
  | zero =>
    intro i stop
    exact ⟨0, by simp [loopBody, checkpointWrites]⟩
  | succ n ih =>
    intro i stop
    cases stop with
    | true =>
      exact ⟨0, by simp [loopBody, checkpointWrites]⟩
    | false =>
      obtain ⟨k, hk⟩ := ih (i + 1) ((env i).stopDuring)
      refine ⟨k + 1, ?_⟩
      simp only [loopBody, Bool.false_or, if_neg (by simp : ¬ (false = true))]
      rw [checkpointWrites_append, checkpointWrites_iterEvents, hk,
        List.range'_succ]
      rfl

/-- C1 counterexample: a two-item run resumed at item 1 in which a stop
request arrives during item 1's generation wait.  The wait rejects with
`Stopped by user`; the per-item catch emits `ITEM_ERROR` for item 1 and
persists `currentIndex = 2`, and no `AUTOMATION_STOPPED` is emitted
because the loop exhausts before the next loop-head check. -/
theorem C1_counterexample_stop_in_generation_wait :
    (Ev.send (Msg.itemError 1 ("Stopped by user")) ∈
      runAutomation false true 2 1
        (fun _ => ⟨ItemStep.failAt FailStage.genWait ("Stopped by user"), true⟩)
        (fun _ => 0)) ∧
    checkpointWrites (runAutomation false true 2 1
        (fun _ => ⟨ItemStep.failAt FailStage.genWait ("Stopped by user"), true⟩)
        (fun _ => 0)) = [2] ∧
    (Ev.send Msg.automationStopped ∉
      runAutomation false true 2 1
        (fun _ => ⟨ItemStep.failAt FailStage.genWait ("Stopped by user"), true⟩)
        (fun _ => 0)) := by
  refine ⟨?_, ?_, ?_⟩ <;> decide

/-- C1 amended: a stop observed while item `i`'s generation wait is pending
makes the wait reject `Stopped by user`, which the per-item error handler
treats as an item failure: `ITEM_ERROR` IS emitted for item `i`, the
persisted checkpoint becomes `i + 1` (not left at `i`), the completion
epilogue is skipped, and `AUTOMATION_STOPPED` is emitted precisely when
item `i` was not the last one (the next loop-head check observes the flag);
the in-memory `isRunning` flag is cleared by the `finally` block either way. -/
theorem C1_stop_during_generation_wait_amended
    (env : Nat → IterEnv) (rand : Nat → ℚ) (total i fuel : Nat) (msg : String)
    (h : env i = ⟨ItemStep.failAt FailStage.genWait msg, true⟩) :
    (Ev.send (Msg.itemError i msg) ∈ runLoopTrace env rand total (fuel + 1) i false) ∧
    checkpointWrites (runLoopTrace env rand total (fuel + 1) i false) = [i + 1] ∧
    (Ev.send Msg.automationStopped ∈ runLoopTrace env rand total (fuel + 1) i false ↔
      0 < fuel) ∧
    (Ev.send Msg.automationComplete ∉ runLoopTrace env rand total (fuel + 1) i false) := by
  have hlb : loopBody env rand total (fuel + 1) i false =
      (iterEvents i total (ItemStep.failAt FailStage.genWait msg)
          (getRandomDelay (rand i)) ++
        (if fuel = 0 then [] else [Ev.send Msg.automationStopped]), true) := by
    simp [loopBody, h, loopBody_stop]
  have htr : runLoopTrace env rand total (fuel + 1) i false =
      iterEvents i total (ItemStep.failAt FailStage.genWait msg)
          (getRandomDelay (rand i)) ++
        (if fuel = 0 then [] else [Ev.send Msg.automationStopped]) := by
    simp [runLoopTrace, hlb, endEvents]
  rw [htr]
  refine ⟨?_, ?_, ?_, ?_⟩
  · simp [iterEvents, progressPrefix]
  · rw [checkpointWrites_append, checkpointWrites_iterEvents]
    cases fuel <;> simp [checkpointWrites]
  · cases fuel <;> simp [iterEvents, progressPrefix]
  · cases fuel <;> simp [iterEvents, progressPrefix]

/-- Witness for C1 amended: item 1 of 2, no further iteration. -/
theorem C1_stop_during_generation_wait_witness :
    (Ev.send (Msg.itemError 1 ("Stopped by user")) ∈
      runLoopTrace (fun _ => ⟨ItemStep.failAt FailStage.genWait ("Stopped by user"), true⟩)
        (fun _ => 0) 2 1 1 false) ∧
    checkpointWrites (runLoopTrace
        (fun _ => ⟨ItemStep.failAt FailStage.genWait ("Stopped by user"), true⟩)
        (fun _ => 0) 2 1 1 false) = [2] ∧
    (Ev.send Msg.automationStopped ∈ runLoopTrace
        (fun _ => ⟨ItemStep.failAt FailStage.genWait ("Stopped by user"), true⟩)
        (fun _ => 0) 2 1 1 false ↔ 0 < 0) ∧
    (Ev.send Msg.automationComplete ∉ runLoopTrace
        (fun _ => ⟨ItemStep.failAt FailStage.genWait ("Stopped by user"), true⟩)
        (fun _ => 0) 2 1 1 false) :=
  C1_stop_during_generation_wait_amended
    (fun _ => ⟨ItemStep.failAt FailStage.genWait ("Stopped by user"), true⟩)
    (fun _ => 0) 2 1 0 ("Stopped by user") rfl

/-- C6 counterexample: a started single-item run whose item succeeds while
a stop request arrives after the item's last cancellation poll point.  The
loop exhausts with the flag set, so the epilogue is skipped and the run
halts having emitted none of `AUTOMATION_STOPPED`, `AUTOMATION_COMPLETE`,
or `ITEM_ERROR`. -/
theorem C6_counterexample_silent_halt :
    (runAutomation false true 1 0 (fun _ => ⟨ItemStep.ok, true⟩)
      (fun _ => 0)).all (fun e => !(isTerminalMsg e)) = true := by
  decide

/-- C6 amended: a run can only halt silently when the stop flag becomes set
during the final processed iteration (after that item's terminal outcome),
leaving the loop exhausted with the flag set; on every other path one of
the three notifications is emitted — a missing/empty queue always yields
the fatal `ITEM_ERROR` with index -1, and a run never observing a stop
request always emits `AUTOMATION_COMPLETE`. -/
theorem C6_terminal_emission_amended :
    (∀ (env : Nat → IterEnv) (rand : Nat → ℚ) (total fuel i : Nat),
      (runLoopTrace env rand total fuel i false).all
          (fun e => !(isTerminalMsg e)) = true →
      (loopBody env rand total fuel i false).2 = true) ∧
    (∀ (hasQueue : Bool) (totalItems startIndex : Nat)
        (env : Nat → IterEnv) (rand : Nat → ℚ),
      hasQueue = false ∨ totalItems = 0 →
      Ev.send (Msg.itemError (-1) ("No queue found in storage")) ∈
        runAutomation false hasQueue totalItems startIndex env rand) ∧
    (∀ (env : Nat → IterEnv) (rand : Nat → ℚ) (total fuel i : Nat),
      (∀ j, (env j).stopDuring = false) →
      Ev.send Msg.automationComplete ∈ runLoopTrace env rand total fuel i false) := by
  refine ⟨?_, ?_, ?_⟩
  · intro env rand total fuel
    induction fuel with
    | zero =>
      intro i h
      simp [runLoopTrace, loopBody, endEvents, isTerminalMsg] at h
    | succ n ih =>
      intro i h
      simp only [runLoopTrace, loopBody, Bool.false_or,
        if_neg (by simp : ¬ (false = true)), List.all_append, List.append_assoc,
        Bool.and_eq_true] at h
      obtain ⟨hevs, hrest, hend⟩ := h
      cases hstep : (env i).step with
      | failAt stage msg =>
        rw [hstep] at hevs
        cases stage <;> simp [iterEvents, progressPrefix, isTerminalMsg] at hevs
      | ok =>
        cases hsd : (env i).stopDuring with
        | true =>
          simp only [loopBody, Bool.false_or,
            if_neg (by simp : ¬ (false = true)), hsd]
          rw [loopBody_stop]
        | false =>
          have hsub : (runLoopTrace env rand total n (i + 1) false).all
              (fun e => !(isTerminalMsg e)) = true := by
            rw [hsd] at hrest hend
            simp [runLoopTrace, List.all_append, hrest, hend]
          have := ih (i + 1) hsub
          simp only [loopBody, Bool.false_or,
            if_neg (by simp : ¬ (false = true)), hsd]
          exact this
  · intro hasQueue totalItems startIndex env rand h
    cases h with
    | inl h => simp [runAutomation, h]
    | inr h => simp [runAutomation, h]
  · intro env rand total fuel
    induction fuel with
    | zero =>
      intro i _
      simp [runLoopTrace, loopBody, endEvents]
    | succ n ih =>
      intro i h
      have hsub := ih (i + 1) h
      simp only [runLoopTrace, List.mem_append] at hsub
      simp only [runLoopTrace, loopBody, Bool.false_or,
        if_neg (by simp : ¬ (false = true)), h i, List.append_assoc,
        List.mem_append]
      tauto

/-- Witness for C6 amended: the silent single-item run, and a queue-less
start. -/
theorem C6_terminal_emission_witness :
    (loopBody (fun _ => ⟨ItemStep.ok, true⟩) (fun _ => 0) 1 1 0 false).2 = true ∧
    Ev.send (Msg.itemError (-1) ("No queue found in storage")) ∈
      runAutomation false false 3 0 (fun _ => ⟨ItemStep.ok, false⟩) (fun _ => 0) :=
  ⟨C6_terminal_emission_amended.1 (fun _ => ⟨ItemStep.ok, true⟩) (fun _ => 0)
      1 1 0 (by decide),
   C6_terminal_emission_amended.2.1 false 3 0 (fun _ => ⟨ItemStep.ok, false⟩)
      (fun _ => 0) (Or.inl rfl)⟩

end MAI
